import Mathlib

/-!
Shallow embedding of the DimeTrack budget tracker (src/DimeTrack.py).

The model layer `BudgetData` owns two entry lists, performs CRUD and
aggregation, and rewrites a JSON file after every mutation.  The UI layer
`BudgetTracker` validates user input (stripped non-empty label, strictly
positive amount) before delegating to `BudgetData`.

Embedding conventions:
* currency amounts are rationals (Python floats carry decimal currency
  values; the claims are about the arithmetic structure, not rounding);
* `datetime.now().isoformat()` is an external input, passed explicitly as
  the `timestamp` argument;
* file writes are made explicit: every operation returns, besides the new
  state, the list of serialized JSON documents it wrote during the call;
* the value a Python method returns (`None`, `True`/`False`) is the last
  component of the returned tuple.
-/

/-- Model of Python `str.strip()`: drop leading and trailing whitespace
characters.  (`String.trim` in core does the same but does not reduce under
`decide`, so the embedding works on the character list directly.) -/
def pyStrip (s : String) : String :=
  ⟨((s.data.dropWhile Char.isWhitespace).reverse.dropWhile Char.isWhitespace).reverse⟩

/-- An income entry as built by `BudgetData.add_income` (a dict with keys
`amount`, `label`, `date`, `timestamp`). -/
structure IncomeEntry where
  amount : ℚ
  label : String
  date : String
  timestamp : String
  deriving DecidableEq, Repr

/-- An expense entry as built by `BudgetData.add_expense` (a dict with keys
`amount`, `label`, `category`, `date`, `timestamp`). -/
structure ExpenseEntry where
  amount : ℚ
  label : String
  category : String
  date : String
  timestamp : String
  deriving DecidableEq, Repr

/-- The in-memory ledger state of the `BudgetData` model class: the two
entry lists `self.income_entries` and `self.expense_entries`. -/
structure BudgetData where
  income_entries : List IncomeEntry
  expense_entries : List ExpenseEntry
  deriving DecidableEq, Repr

/-- A JSON value, the shape `json.dump` / `json.load` exchange with the
data file. -/
inductive Json where
  | null : Json
  | bool (b : Bool) : Json
  | num (q : ℚ) : Json
  | str (s : String) : Json
  | arr (elems : List Json) : Json
  | obj (members : List (String × Json)) : Json

/-- The JSON object `add_income` builds for one income entry. -/
def encodeIncome (e : IncomeEntry) : Json :=
  .obj [("amount", .num e.amount), ("label", .str e.label),
        ("date", .str e.date), ("timestamp", .str e.timestamp)]

/-- The JSON object `add_expense` builds for one expense entry. -/
def encodeExpense (e : ExpenseEntry) : Json :=
  .obj [("amount", .num e.amount), ("label", .str e.label),
        ("category", .str e.category),
        ("date", .str e.date), ("timestamp", .str e.timestamp)]

/-- `BudgetData.save_data`: the JSON document written to the data file, an
object holding both entire entry sequences. -/
def BudgetData.save_data (d : BudgetData) : Json :=
  .obj [("income_entries", .arr (d.income_entries.map encodeIncome)),
        ("expense_entries", .arr (d.expense_entries.map encodeExpense))]

/-- Python `dict.get(key)` on a parsed JSON object (keys are unique in a
parsed JSON object, so first match suffices). -/
def jGet (members : List (String × Json)) (key : String) : Option Json :=
  (members.find? (fun kv => decide (kv.1 = key))).map (fun kv => kv.2)

/-- Read one income entry back from its JSON object: the fields the rest of
the program accesses (`entry['amount']` etc.).  `load_data` in Python keeps
the parsed dicts verbatim; on every document produced by `save_data` this
decoder recovers exactly the original entry. -/
def decodeIncome : Json → Option IncomeEntry
  | .obj ms =>
    match jGet ms "amount", jGet ms "label", jGet ms "date", jGet ms "timestamp" with
    | some (.num a), some (.str lab), some (.str dt), some (.str ts) =>
        some ⟨a, lab, dt, ts⟩
    | _, _, _, _ => none
  | _ => none

/-- Read one expense entry back from its JSON object (see `decodeIncome`). -/
def decodeExpense : Json → Option ExpenseEntry
  | .obj ms =>
    match jGet ms "amount", jGet ms "label", jGet ms "category",
          jGet ms "date", jGet ms "timestamp" with
    | some (.num a), some (.str lab), some (.str c), some (.str dt), some (.str ts) =>
        some ⟨a, lab, c, dt, ts⟩
    | _, _, _, _, _ => none
  | _ => none

/-- The income list stored under a top-level key: an array of entry
objects; anything else contributes no entries. -/
def decodeIncomeList : Json → List IncomeEntry
  | .arr xs => xs.filterMap decodeIncome
  | _ => []

/-- The expense list stored under a top-level key. -/
def decodeExpenseList : Json → List ExpenseEntry
  | .arr xs => xs.filterMap decodeExpense
  | _ => []

/-- What `load_data` finds at `self.data_file`: no file, a file `json.load`
rejects, or a parsed JSON document. -/
inductive FileState where
  | missing : FileState
  | unparsable : FileState
  | parsed (j : Json) : FileState

/-- `BudgetData.load_data` acting on the prior state `d` (the freshly
initialised empty lists at construction time).  Missing file: the guard
`self.data_file.exists()` fails and the state is untouched (no warning).
Unparsable file (or a parsed document that is not an object, where
`data.get` raises): the `except` clause prints an error, state untouched;
the Boolean records whether that warning was printed.  Parsed object: both
lists are replaced, absent top-level keys defaulting to the empty array. -/
def BudgetData.load_data (d : BudgetData) : FileState → BudgetData × Bool
  | .missing => (d, false)
  | .unparsable => (d, true)
  | .parsed (.obj ms) =>
      ({ income_entries := decodeIncomeList ((jGet ms "income_entries").getD (.arr [])),
         expense_entries := decodeExpenseList ((jGet ms "expense_entries").getD (.arr [])) },
       false)
  | .parsed _ => (d, true)

/-- `BudgetData.add_income(amount, label, date)`: append the new entry,
write the file once, and fall off the end of the function — Python returns
`None`, modelled as the `Option Nat` component being `none` (no entry
identifier is handed back). -/
def BudgetData.add_income (d : BudgetData) (amount : ℚ) (label date timestamp : String) :
    BudgetData × List Json × Option Nat :=
  let d' : BudgetData :=
    { d with income_entries := d.income_entries ++ [⟨amount, label, date, timestamp⟩] }
  (d', [d'.save_data], none)

/-- `BudgetData.add_expense(amount, label, category, date)`: append, write
the file once, return `None`. -/
def BudgetData.add_expense (d : BudgetData) (amount : ℚ) (label category date timestamp : String) :
    BudgetData × List Json × Option Nat :=
  let d' : BudgetData :=
    { d with expense_entries := d.expense_entries ++ [⟨amount, label, category, date, timestamp⟩] }
  (d', [d'.save_data], none)

/-- `BudgetData.remove_income(index)`: `if 0 <= index < len(...)` delete at
that position, save once and return `True`; otherwise do nothing and return
`False`. -/
def BudgetData.remove_income (d : BudgetData) (index : Int) :
    BudgetData × List Json × Bool :=
  if 0 ≤ index ∧ index < (d.income_entries.length : Int) then
    let d' : BudgetData :=
      { d with income_entries := d.income_entries.eraseIdx index.toNat }
    (d', [d'.save_data], true)
  else (d, [], false)

/-- `BudgetData.remove_expense(index)`: bounds-checked positional delete,
mirroring `remove_income`. -/
def BudgetData.remove_expense (d : BudgetData) (index : Int) :
    BudgetData × List Json × Bool :=
  if 0 ≤ index ∧ index < (d.expense_entries.length : Int) then
    let d' : BudgetData :=
      { d with expense_entries := d.expense_entries.eraseIdx index.toNat }
    (d', [d'.save_data], true)
  else (d, [], false)

/-- `BudgetData.get_total_income`: `sum(entry['amount'] for entry in ...)`. -/
def BudgetData.get_total_income (d : BudgetData) : ℚ :=
  (d.income_entries.map (fun e => e.amount)).sum

/-- `BudgetData.get_total_expenses`: `sum(entry['amount'] for entry in ...)`. -/
def BudgetData.get_total_expenses (d : BudgetData) : ℚ :=
  (d.expense_entries.map (fun e => e.amount)).sum

/-- `BudgetData.get_balance`: total income minus total expenses. -/
def BudgetData.get_balance (d : BudgetData) : ℚ :=
  d.get_total_income - d.get_total_expenses

/-- One iteration of the `get_expenses_by_category` loop: insert the
category with value `0` if absent (appended, preserving dict insertion
order), then add the entry's amount to it. -/
def bumpCategory (cats : List (String × ℚ)) (c : String) (a : ℚ) :
    List (String × ℚ) :=
  (if cats.any (fun kv => decide (kv.1 = c)) then cats else cats ++ [(c, 0)]).map
    (fun kv => if kv.1 = c then (kv.1, kv.2 + a) else kv)

/-- `BudgetData.get_expenses_by_category`: fold the loop body over the
expense list, starting from the empty dict.  The Python dict is modelled as
an association list in insertion order. -/
def BudgetData.get_expenses_by_category (d : BudgetData) : List (String × ℚ) :=
  d.expense_entries.foldl (fun cats e => bumpCategory cats e.category e.amount) []

/-- Outcome of a `BudgetTracker` add handler: success, or a `ValueError`
raised by validation and caught by the `except` clause (the entry is never
stored in that case). -/
inductive AddOutcome where
  | ok : AddOutcome
  | validationError (msg : String) : AddOutcome
  deriving DecidableEq, Repr

/-- `BudgetTracker.add_income`: strip the label, reject an empty result,
reject `amount <= 0`, otherwise delegate to `BudgetData.add_income` with
the stripped label.  Returns the new state, the file writes performed, and
the outcome. -/
def BudgetTracker.add_income (d : BudgetData) (amount : ℚ) (rawLabel date timestamp : String) :
    BudgetData × List Json × AddOutcome :=
  let label := pyStrip rawLabel
  if label = "" then
    (d, [], .validationError "Please enter a description for the income.")
  else if amount ≤ 0 then
    (d, [], .validationError "Income must be greater than zero.")
  else
    let r := d.add_income amount label date timestamp
    (r.1, r.2.1, .ok)

/-- `BudgetTracker.add_expense`: same validation, then delegate to
`BudgetData.add_expense`. -/
def BudgetTracker.add_expense
    (d : BudgetData) (amount : ℚ) (rawLabel category date timestamp : String) :
    BudgetData × List Json × AddOutcome :=
  let label := pyStrip rawLabel
  if label = "" then
    (d, [], .validationError "Please enter a description for the expense.")
  else if amount ≤ 0 then
    (d, [], .validationError "Expense must be greater than zero.")
  else
    let r := d.add_expense amount label category date timestamp
    (r.1, r.2.1, .ok)

/-- Savings rate as computed in `BudgetTracker.update_report`:
`(balance/total_income*100) if total_income > 0 else 0`. -/
def BudgetTracker.savings_rate (d : BudgetData) : ℚ :=
  if d.get_total_income > 0 then d.get_balance / d.get_total_income * 100 else 0

/-- Per-category percentage as computed in `update_report`:
`(amount / total_expenses * 100) if total_expenses > 0 else 0`. -/
def BudgetTracker.category_percentage (d : BudgetData) (amount : ℚ) : ℚ :=
  if d.get_total_expenses > 0 then amount / d.get_total_expenses * 100 else 0

/-- The data-model invariant of the spec: every stored amount is strictly
positive (established by the tracker-level validation). -/
def BudgetData.Wf (d : BudgetData) : Prop :=
  (∀ e ∈ d.income_entries, 0 < e.amount) ∧ (∀ e ∈ d.expense_entries, 0 < e.amount)

/-- Ledger states reachable from the empty ledger by the application's
add/remove operations (validated adds through the tracker handlers,
bounds-checked removals). -/
inductive Reachable : BudgetData → Prop where
  | init : Reachable ⟨[], []⟩
  | add_income (d : BudgetData) (a : ℚ) (lab dt ts : String) :
      Reachable d → Reachable (BudgetTracker.add_income d a lab dt ts).1
  | add_expense (d : BudgetData) (a : ℚ) (lab c dt ts : String) :
      Reachable d → Reachable (BudgetTracker.add_expense d a lab c dt ts).1
  | remove_income (d : BudgetData) (i : Int) :
      Reachable d → Reachable (d.remove_income i).1
  | remove_expense (d : BudgetData) (i : Int) :
      Reachable d → Reachable (d.remove_expense i).1

/-- Sum of the values of an association-list dict (the Python
`sum(categories.values())`). -/
def sumValues (m : List (String × ℚ)) : ℚ := (m.map (fun kv => kv.2)).sum

/-- Keys of an association-list dict, in insertion order. -/
def dictKeys (m : List (String × ℚ)) : List String := m.map (fun kv => kv.1)

/-! ### Claim theorems -/

/-- Claim C1: a tracker-level `add_income` or `add_expense` call with
`amount <= 0`, or with a label that is empty after stripping surrounding
whitespace, reports a `ValidationError`, stores no entry, performs no file
write, and leaves the ledger state (so in particular both entry counts)
unchanged. -/
theorem add_validation_rejects (d : BudgetData) (a : ℚ) (lab c dt ts : String)
    (h : a ≤ 0 ∨ pyStrip lab = "") :
    (∃ msg, BudgetTracker.add_income d a lab dt ts = (d, [], .validationError msg)) ∧
    (∃ msg, BudgetTracker.add_expense d a lab c dt ts = (d, [], .validationError msg)) := by
  unfold BudgetTracker.add_income BudgetTracker.add_expense
  by_cases hl : pyStrip lab = ""
  · simp [hl]
  · have ha : a ≤ 0 := h.resolve_right hl
    simp [hl, ha]

/-- Witness for C1 at a concrete input: amount `-5` with a non-blank label
is rejected by `add_income` and the empty ledger is unchanged. -/
theorem add_validation_rejects_witness :
    ((-5 : ℚ) ≤ 0 ∨ pyStrip "Salary" = "") ∧
    (∃ msg, BudgetTracker.add_income ⟨[], []⟩ (-5) "Salary" "2024-01-01" "T0"
      = (⟨[], []⟩, [], .validationError msg)) :=
  ⟨Or.inl (by norm_num),
   (add_validation_rejects ⟨[], []⟩ (-5) "Salary" "Food & Dining" "2024-01-01" "T0"
     (Or.inl (by norm_num))).1⟩

/-- Claim C4: `get_balance` equals `get_total_income` minus
`get_total_expenses` for every ledger, and on the empty ledger all three
aggregations are zero.  The three aggregations are embedded as pure
functions of the state (the Python methods only read `self`), so they
cannot mutate the ledger by construction. -/
theorem balance_identity (d : BudgetData) :
    d.get_balance = d.get_total_income - d.get_total_expenses ∧
    (⟨[], []⟩ : BudgetData).get_total_income = 0 ∧
    (⟨[], []⟩ : BudgetData).get_total_expenses = 0 ∧
    (⟨[], []⟩ : BudgetData).get_balance = 0 :=
  ⟨rfl, rfl, rfl, by
    simp [BudgetData.get_balance, BudgetData.get_total_income,
      BudgetData.get_total_expenses]⟩

/-- Claim C10: the operations on one entry sequence never touch the other:
`add_income` and `remove_income` preserve the expense list exactly, and
`add_expense` and `remove_expense` preserve the income list exactly, for
every state and argument. -/
theorem cross_frame_preservation (d : BudgetData) (a : ℚ) (lab c dt ts : String) (i : Int) :
    (d.add_income a lab dt ts).1.expense_entries = d.expense_entries ∧
    (d.remove_income i).1.expense_entries = d.expense_entries ∧
    (d.add_expense a lab c dt ts).1.income_entries = d.income_entries ∧
    (d.remove_expense i).1.income_entries = d.income_entries := by
  refine ⟨rfl, ?_, rfl, ?_⟩
  · unfold BudgetData.remove_income
    split <;> rfl
  · unfold BudgetData.remove_expense
    split <;> rfl

/-- Claim C2: `remove_income` / `remove_expense` with an index outside
`[0, length)` return `false` and leave the entry sequence (indeed the whole
result state) unchanged, without crashing; with a valid index they delete
exactly the entry at that position (the survivors are the prefix before it
followed by the suffix after it, in order), the length drops by exactly
one, they return `true`, and they persist the new state. -/
theorem remove_index_bounds (d : BudgetData) (i : Int) :
    (¬ (0 ≤ i ∧ i < (d.income_entries.length : Int)) →
        d.remove_income i = (d, [], false)) ∧
    (¬ (0 ≤ i ∧ i < (d.expense_entries.length : Int)) →
        d.remove_expense i = (d, [], false)) ∧
    ((0 ≤ i ∧ i < (d.income_entries.length : Int)) →
        (d.remove_income i).1.income_entries
            = d.income_entries.take i.toNat ++ d.income_entries.drop (i.toNat + 1) ∧
        (d.remove_income i).1.income_entries.length = d.income_entries.length - 1 ∧
        (d.remove_income i).2.2 = true ∧
        (d.remove_income i).2.1 = [(d.remove_income i).1.save_data]) ∧
    ((0 ≤ i ∧ i < (d.expense_entries.length : Int)) →
        (d.remove_expense i).1.expense_entries
            = d.expense_entries.take i.toNat ++ d.expense_entries.drop (i.toNat + 1) ∧
        (d.remove_expense i).1.expense_entries.length = d.expense_entries.length - 1 ∧
        (d.remove_expense i).2.2 = true ∧
        (d.remove_expense i).2.1 = [(d.remove_expense i).1.save_data]) := by
  refine ⟨?_, ?_, ?_, ?_⟩
  · intro h
    simp [BudgetData.remove_income, h]
  · intro h
    simp [BudgetData.remove_expense, h]
  · intro h
    have hi : i.toNat < d.income_entries.length := by omega
    simp only [BudgetData.remove_income, if_pos h]
    refine ⟨List.eraseIdx_eq_take_drop_succ _ _, ?_, trivial, trivial⟩
    rw [List.length_eraseIdx]
    simp [hi]
  · intro h
    have hi : i.toNat < d.expense_entries.length := by omega
    simp only [BudgetData.remove_expense, if_pos h]
    refine ⟨List.eraseIdx_eq_take_drop_succ _ _, ?_, trivial, trivial⟩
    rw [List.length_eraseIdx]
    simp [hi]

/-- Witness for C2 at a concrete input: removing index 5 from a one-entry
income list fails and changes nothing. -/
theorem remove_index_bounds_witness :
    ¬ ((0 : Int) ≤ 5 ∧ (5 : Int)
        < (((⟨[⟨4, "Pay", "2024-01-01", "T0"⟩], []⟩ : BudgetData)).income_entries.length : Int)) ∧
    BudgetData.remove_income ⟨[⟨4, "Pay", "2024-01-01", "T0"⟩], []⟩ 5
      = (⟨[⟨4, "Pay", "2024-01-01", "T0"⟩], []⟩, [], false) :=
  ⟨by decide,
   (remove_index_bounds ⟨[⟨4, "Pay", "2024-01-01", "T0"⟩], []⟩ 5).1 (by decide)⟩

/-- Counterexample to claim C8 as stated: `BudgetData.add_income` (and
`add_expense`) hands no position/identifier back to the caller — the Python
method has no `return` statement, so the call evaluates to `None`, never to
an `EntryId`.  Shown at the concrete call from the spec's example
scenario. -/
theorem add_income_returns_none :
    (BudgetData.add_income ⟨[], []⟩ 1500 "Salary" "2024-01-01" "T0").2.2 = none ∧
    ¬ ∃ n : Nat,
      (BudgetData.add_income ⟨[], []⟩ 1500 "Salary" "2024-01-01" "T0").2.2 = some n := by
  exact ⟨rfl, fun ⟨n, h⟩ => Option.noConfusion h⟩

/-- Claim C8 (amended): on every `add_income` / `add_expense` call the
store appends a new entry carrying the given amount, label, (category,)
date and creation timestamp as the new last element, performs one full
persistence write — but returns Python `None`: no position/identifier is
returned; the new entry's position is recoverable only as the new length
minus one. -/
theorem add_appends_and_persists (d : BudgetData) (a : ℚ) (lab c dt ts : String) :
    (d.add_income a lab dt ts).1.income_entries
        = d.income_entries ++ [⟨a, lab, dt, ts⟩] ∧
    (d.add_income a lab dt ts).1.income_entries.length
        = d.income_entries.length + 1 ∧
    (d.add_income a lab dt ts).2.1 = [(d.add_income a lab dt ts).1.save_data] ∧
    (d.add_income a lab dt ts).2.2 = none ∧
    (d.add_expense a lab c dt ts).1.expense_entries
        = d.expense_entries ++ [⟨a, lab, c, dt, ts⟩] ∧
    (d.add_expense a lab c dt ts).1.expense_entries.length
        = d.expense_entries.length + 1 ∧
    (d.add_expense a lab c dt ts).2.1 = [(d.add_expense a lab c dt ts).1.save_data] ∧
    (d.add_expense a lab c dt ts).2.2 = none := by
  refine ⟨rfl, ?_, rfl, rfl, rfl, ?_, rfl, rfl⟩ <;>
    simp [BudgetData.add_income, BudgetData.add_expense]

/-- Claim C9: each successful mutation performs exactly one file write,
namely the full serialization of both entire entry sequences of the
post-state (the final conjunct pins down that `save_data` serializes both
whole lists); a removal that fails its bounds check performs no write at
all. -/
theorem mutation_single_write (d : BudgetData) (a : ℚ) (lab c dt ts : String) (i : Int) :
    (d.add_income a lab dt ts).2.1 = [(d.add_income a lab dt ts).1.save_data] ∧
    (d.add_expense a lab c dt ts).2.1 = [(d.add_expense a lab c dt ts).1.save_data] ∧
    ((0 ≤ i ∧ i < (d.income_entries.length : Int)) →
        (d.remove_income i).2.1 = [(d.remove_income i).1.save_data]) ∧
    (¬ (0 ≤ i ∧ i < (d.income_entries.length : Int)) →
        (d.remove_income i).2.1 = []) ∧
    ((0 ≤ i ∧ i < (d.expense_entries.length : Int)) →
        (d.remove_expense i).2.1 = [(d.remove_expense i).1.save_data]) ∧
    (¬ (0 ≤ i ∧ i < (d.expense_entries.length : Int)) →
        (d.remove_expense i).2.1 = []) ∧
    d.save_data
        = .obj [("income_entries", .arr (d.income_entries.map encodeIncome)),
                ("expense_entries", .arr (d.expense_entries.map encodeExpense))] := by
  refine ⟨rfl, rfl, ?_, ?_, ?_, ?_, rfl⟩ <;> intro h <;>
    simp [BudgetData.remove_income, BudgetData.remove_expense, h]

/-- Witness for C9 at a concrete input: removing index -1 from the empty
ledger writes nothing. -/
theorem mutation_single_write_witness :
    ¬ ((0 : Int) ≤ -1 ∧ (-1 : Int)
        < (((⟨[], []⟩ : BudgetData)).income_entries.length : Int)) ∧
    (BudgetData.remove_income ⟨[], []⟩ (-1)).2.1 = [] :=
  ⟨by decide,
   (mutation_single_write ⟨[], []⟩ 1 "x" "c" "2024-01-01" "T0" (-1)).2.2.2.1 (by decide)⟩

/-- Decoding inverts encoding on income entries. -/
theorem decodeIncome_encodeIncome (e : IncomeEntry) :
    decodeIncome (encodeIncome e) = some e := rfl

/-- Decoding inverts encoding on expense entries. -/
theorem decodeExpense_encodeExpense (e : ExpenseEntry) :
    decodeExpense (encodeExpense e) = some e := rfl

/-- Decoding a saved income array recovers the original list. -/
theorem decodeIncomeList_encode (l : List IncomeEntry) :
    decodeIncomeList (.arr (l.map encodeIncome)) = l := by
  simp [decodeIncomeList, List.filterMap_map, Function.comp_def,
    decodeIncome_encodeIncome]

/-- Decoding a saved expense array recovers the original list. -/
theorem decodeExpenseList_encode (l : List ExpenseEntry) :
    decodeExpenseList (.arr (l.map encodeExpense)) = l := by
  simp [decodeExpenseList, List.filterMap_map, Function.comp_def,
    decodeExpense_encodeExpense]

/-- Loading the document written by `save_data` reproduces the saved state
exactly, from any prior in-memory state, and prints no warning. -/
theorem load_save_roundtrip_all (st d : BudgetData) :
    st.load_data (.parsed d.save_data) = (d, false) := by
  obtain ⟨inc, exp⟩ := d
  simp [BudgetData.load_data, BudgetData.save_data, jGet,
    decodeIncomeList_encode, decodeExpenseList_encode]

/-- Claim C3: for every ledger reachable by a sequence of add/remove
operations, loading (from the freshly-constructed empty state) the file
written by `save_data` reproduces the same income and expense entries, in
the same order, with the same field values. -/
theorem load_after_save_roundtrip (d : BudgetData) (_hr : Reachable d) :
    (⟨[], []⟩ : BudgetData).load_data (.parsed d.save_data) = (d, false) :=
  load_save_roundtrip_all ⟨[], []⟩ d

/-- Witness for C3 at a concrete reachable ledger: empty ledger plus one
validated income entry round-trips through save and load. -/
theorem load_after_save_roundtrip_witness :
    Reachable (BudgetTracker.add_income ⟨[], []⟩ 1500 "Salary" "2024-01-01" "T0").1 ∧
    (⟨[], []⟩ : BudgetData).load_data
        (.parsed (BudgetTracker.add_income ⟨[], []⟩ 1500 "Salary" "2024-01-01" "T0").1.save_data)
      = ((BudgetTracker.add_income ⟨[], []⟩ 1500 "Salary" "2024-01-01" "T0").1, false) :=
  ⟨Reachable.add_income ⟨[], []⟩ 1500 "Salary" "2024-01-01" "T0" Reachable.init,
   load_after_save_roundtrip _
     (Reachable.add_income ⟨[], []⟩ 1500 "Salary" "2024-01-01" "T0" Reachable.init)⟩

/-- Claim C6: `load_data` is a total function (it never raises): a missing
file yields the empty ledger with both totals zero and no warning; an
unparsable file also yields the empty ledger, surfacing only the printed
warning; and a top-level key missing from a parsed file defaults to the
empty entry sequence. -/
theorem load_recovers_defaults (st : BudgetData) (ms : List (String × Json)) :
    (⟨[], []⟩ : BudgetData).load_data .missing = (⟨[], []⟩, false) ∧
    ((⟨[], []⟩ : BudgetData).load_data .missing).1.get_total_income = 0 ∧
    ((⟨[], []⟩ : BudgetData).load_data .missing).1.get_total_expenses = 0 ∧
    (⟨[], []⟩ : BudgetData).load_data .unparsable = (⟨[], []⟩, true) ∧
    (jGet ms "income_entries" = none →
        (st.load_data (.parsed (.obj ms))).1.income_entries = []) ∧
    (jGet ms "expense_entries" = none →
        (st.load_data (.parsed (.obj ms))).1.expense_entries = []) := by
  refine ⟨rfl, rfl, rfl, rfl, ?_, ?_⟩ <;> intro h <;>
    simp [BudgetData.load_data, h, decodeIncomeList, decodeExpenseList]

/-- Witness for C6 at a concrete input: a parsed file whose object has
neither top-level key loads as the empty ledger. -/
theorem load_recovers_defaults_witness :
    jGet [] "income_entries" = none ∧
    ((⟨[], []⟩ : BudgetData).load_data (.parsed (.obj []))).1.income_entries = [] :=
  ⟨rfl, (load_recovers_defaults ⟨[], []⟩ []).2.2.2.2.1 rfl⟩

/-- Under the data-model invariant, total income is nonnegative. -/
theorem total_income_nonneg (d : BudgetData) (h : d.Wf) : 0 ≤ d.get_total_income := by
  apply List.sum_nonneg
  intro x hx
  rw [List.mem_map] at hx
  obtain ⟨e, he, rfl⟩ := hx
  exact le_of_lt (h.1 e he)

/-- Under the data-model invariant, total expenses are nonnegative. -/
theorem total_expenses_nonneg (d : BudgetData) (h : d.Wf) : 0 ≤ d.get_total_expenses := by
  apply List.sum_nonneg
  intro x hx
  rw [List.mem_map] at hx
  obtain ⟨e, he, rfl⟩ := hx
  exact le_of_lt (h.2 e he)

/-- Claim C7: for every ledger satisfying the data-model invariant (all
stored amounts strictly positive), the summary report's savings rate is
`balance / totalIncome * 100` and is `0` exactly when `totalIncome = 0`
(a guard, not an error); and each category's percentage of total expenses
is `amount / totalExpenses * 100`, defined as `0` when total expenses are
`0`. -/
theorem savings_rate_guard (d : BudgetData) (h : d.Wf) :
    (d.get_total_income = 0 → BudgetTracker.savings_rate d = 0) ∧
    (d.get_total_income ≠ 0 →
        BudgetTracker.savings_rate d = d.get_balance / d.get_total_income * 100) ∧
    (∀ a : ℚ, d.get_total_expenses = 0 → BudgetTracker.category_percentage d a = 0) ∧
    (∀ a : ℚ, d.get_total_expenses ≠ 0 →
        BudgetTracker.category_percentage d a = a / d.get_total_expenses * 100) := by
  refine ⟨?_, ?_, ?_, ?_⟩
  · intro h0
    simp [BudgetTracker.savings_rate, h0]
  · intro hne
    have hpos : 0 < d.get_total_income :=
      lt_of_le_of_ne (total_income_nonneg d h) (Ne.symm hne)
    simp [BudgetTracker.savings_rate, hpos]
  · intro a h0
    simp [BudgetTracker.category_percentage, h0]
  · intro a hne
    have hpos : 0 < d.get_total_expenses :=
      lt_of_le_of_ne (total_expenses_nonneg d h) (Ne.symm hne)
    simp [BudgetTracker.category_percentage, hpos]

/-- Witness for C7 at a concrete input: the empty ledger satisfies the
invariant, has zero total income, and reports a savings rate of 0. -/
theorem savings_rate_guard_witness :
    (⟨[], []⟩ : BudgetData).Wf ∧
    (⟨[], []⟩ : BudgetData).get_total_income = 0 ∧
    BudgetTracker.savings_rate ⟨[], []⟩ = 0 :=
  ⟨⟨by simp, by simp⟩, rfl,
   (savings_rate_guard ⟨[], []⟩ ⟨by simp, by simp⟩).1 rfl⟩

/-- `sumValues` distributes over cons. -/
theorem sumValues_cons (kv : String × ℚ) (m : List (String × ℚ)) :
    sumValues (kv :: m) = kv.2 + sumValues m := by
  simp [sumValues]

/-- The `any` test of the grouping loop detects exactly key membership. -/
theorem any_key_iff (m : List (String × ℚ)) (c : String) :
    (m.any (fun kv => decide (kv.1 = c)) = true) ↔ c ∈ dictKeys m := by
  rw [List.any_eq_true]
  constructor
  · rintro ⟨kv, hkv, hdec⟩
    rw [dictKeys, List.mem_map]
    exact ⟨kv, hkv, of_decide_eq_true hdec⟩
  · intro hmem
    rw [dictKeys, List.mem_map] at hmem
    obtain ⟨kv, hkv, he⟩ := hmem
    exact ⟨kv, hkv, decide_eq_true he⟩

/-- Adding an amount at an absent key is a no-op on the whole list. -/
theorem bump_map_id (m : List (String × ℚ)) (c : String) (a : ℚ)
    (h : c ∉ dictKeys m) :
    m.map (fun kv => if kv.1 = c then (kv.1, kv.2 + a) else kv) = m := by
  induction m with
  | nil => rfl
  | cons kv rest ih =>
      simp only [dictKeys, List.map_cons, List.mem_cons, not_or] at h
      simp only [List.map_cons, List.cons.injEq]
      exact ⟨by rw [if_neg fun hk => h.1 hk.symm], ih h.2⟩

/-- Adding an amount at a present key (keys distinct) raises the value sum
by exactly that amount. -/
theorem sumValues_bump (m : List (String × ℚ)) (c : String) (a : ℚ)
    (hnd : (dictKeys m).Nodup) (hmem : c ∈ dictKeys m) :
    sumValues (m.map (fun kv => if kv.1 = c then (kv.1, kv.2 + a) else kv))
      = sumValues m + a := by
  induction m with
  | nil => simp [dictKeys] at hmem
  | cons kv rest ih =>
      simp only [dictKeys, List.map_cons, List.nodup_cons] at hnd
      by_cases hk : kv.1 = c
      · have hc : c ∉ dictKeys rest := by
          rw [← hk]
          exact hnd.1
        rw [List.map_cons, if_pos hk, bump_map_id rest c a hc,
          sumValues_cons, sumValues_cons]
        ring
      · have hc : c ∈ dictKeys rest := by
          rcases (by simpa [dictKeys] using hmem : c = kv.1 ∨ c ∈ dictKeys rest) with h1 | h2
          · exact absurd h1.symm hk
          · exact h2
        rw [List.map_cons, if_neg hk, sumValues_cons, sumValues_cons, ih hnd.2 hc]
        ring

/-- The bump map leaves the key list unchanged. -/
theorem dictKeys_bump_map (m : List (String × ℚ)) (c : String) (a : ℚ) :
    dictKeys (m.map (fun kv => if kv.1 = c then (kv.1, kv.2 + a) else kv))
      = dictKeys m := by
  simp only [dictKeys, List.map_map]
  congr 1
  funext kv
  by_cases hk : kv.1 = c <;> simp [hk]

/-- Keys after one grouping step: unchanged if the category was present,
otherwise the category is appended. -/
theorem dictKeys_bumpCategory (m : List (String × ℚ)) (c : String) (a : ℚ) :
    dictKeys (bumpCategory m c a)
      = if c ∈ dictKeys m then dictKeys m else dictKeys m ++ [c] := by
  unfold bumpCategory
  by_cases hc : c ∈ dictKeys m
  · rw [if_pos ((any_key_iff m c).mpr hc), dictKeys_bump_map, if_pos hc]
  · rw [if_neg (fun hx => hc ((any_key_iff m c).mp hx)), dictKeys_bump_map, if_neg hc]
    simp [dictKeys]

/-- One grouping step preserves distinctness of the keys. -/
theorem dictKeys_bumpCategory_nodup (m : List (String × ℚ)) (c : String) (a : ℚ)
    (h : (dictKeys m).Nodup) : (dictKeys (bumpCategory m c a)).Nodup := by
  rw [dictKeys_bumpCategory]
  by_cases hc : c ∈ dictKeys m
  · simpa [hc]
  · simp [hc, List.nodup_append, h]

/-- One grouping step adds the entry's amount to the value sum (keys
distinct). -/
theorem sumValues_bumpCategory (m : List (String × ℚ)) (c : String) (a : ℚ)
    (h : (dictKeys m).Nodup) :
    sumValues (bumpCategory m c a) = sumValues m + a := by
  unfold bumpCategory
  by_cases hc : c ∈ dictKeys m
  · rw [if_pos ((any_key_iff m c).mpr hc)]
    exact sumValues_bump m c a h hc
  · rw [if_neg (fun hx => hc ((any_key_iff m c).mp hx))]
    have hnd : (dictKeys (m ++ [(c, 0)])).Nodup := by
      simp only [dictKeys, List.map_append, List.map_cons, List.map_nil]
      rw [List.nodup_append]
      refine ⟨h, List.nodup_singleton c, fun x hx hx' => ?_⟩
      rw [List.mem_singleton] at hx'
      subst hx'
      exact hc hx
    have hmem : c ∈ dictKeys (m ++ [(c, 0)]) := by simp [dictKeys]
    rw [sumValues_bump _ c a hnd hmem]
    simp [sumValues]

/-- Key membership after one grouping step. -/
theorem mem_dictKeys_bumpCategory (m : List (String × ℚ)) (c x : String) (a : ℚ) :
    x ∈ dictKeys (bumpCategory m c a) ↔ x ∈ dictKeys m ∨ x = c := by
  rw [dictKeys_bumpCategory]
  by_cases hc : c ∈ dictKeys m
  · rw [if_pos hc]
    constructor
    · exact Or.inl
    · rintro (h | rfl)
      · exact h
      · exact hc
  · rw [if_neg hc]
    simp

/-- The grouping fold, from any accumulator with distinct keys: keys stay
distinct, the value sum grows by the total of the processed amounts, and
the keys gain exactly the categories of the processed entries. -/
theorem grouping_foldl (es : List ExpenseEntry) :
    ∀ m : List (String × ℚ), (dictKeys m).Nodup →
      (dictKeys (es.foldl (fun cats e => bumpCategory cats e.category e.amount) m)).Nodup ∧
      sumValues (es.foldl (fun cats e => bumpCategory cats e.category e.amount) m)
        = sumValues m + (es.map (fun e => e.amount)).sum ∧
      ∀ x, x ∈ dictKeys (es.foldl (fun cats e => bumpCategory cats e.category e.amount) m)
        ↔ (x ∈ dictKeys m ∨ ∃ e ∈ es, e.category = x) := by
  induction es with
  | nil =>
      intro m hm
      simp [hm]
  | cons e rest ih =>
      intro m hm
      simp only [List.foldl_cons]
      obtain ⟨h1, h2, h3⟩ :=
        ih (bumpCategory m e.category e.amount) (dictKeys_bumpCategory_nodup _ _ _ hm)
      refine ⟨h1, ?_, ?_⟩
      · rw [h2, sumValues_bumpCategory _ _ _ hm, List.map_cons, List.sum_cons]
        ring
      · intro x
        rw [h3 x, mem_dictKeys_bumpCategory]
        simp only [List.mem_cons]
        constructor
        · rintro ((h | rfl) | ⟨e', he', rfl⟩)
          · exact Or.inl h
          · exact Or.inr ⟨e, Or.inl rfl, rfl⟩
          · exact Or.inr ⟨e', Or.inr he', rfl⟩
        · rintro (h | ⟨e', he', rfl⟩)
          · exact Or.inl (Or.inl h)
          · rcases he' with rfl | he'
            · exact Or.inl (Or.inr rfl)
            · exact Or.inr ⟨e', he', rfl⟩

/-- Claim C5: for every ledger with a non-empty expense set, the sum of the
amounts in the mapping returned by `get_expenses_by_category` equals
`get_total_expenses` exactly (no entry lost or double-counted), and the
mapping has a key for a category if and only if at least one expense entry
has that category. -/
theorem category_grouping_complete (d : BudgetData) (_h : d.expense_entries ≠ []) :
    sumValues d.get_expenses_by_category = d.get_total_expenses ∧
    ∀ c, c ∈ dictKeys d.get_expenses_by_category
        ↔ ∃ e ∈ d.expense_entries, e.category = c := by
  obtain ⟨_, hsum, hmem⟩ :=
    grouping_foldl d.expense_entries [] (by simp [dictKeys])
  constructor
  · rw [BudgetData.get_expenses_by_category, hsum]
    simp [sumValues, BudgetData.get_total_expenses]
  · intro c
    rw [BudgetData.get_expenses_by_category, hmem c]
    simp [dictKeys]

/-- Witness for C5 at the spec's example scenario: two expenses in distinct
categories; the grouped sums add up to the expense total. -/
theorem category_grouping_complete_witness :
    (⟨[], [⟨200, "Groceries", "Food & Dining", "2024-01-02", "T1"⟩,
           ⟨100, "Gas", "Transportation", "2024-01-03", "T2"⟩]⟩ : BudgetData).expense_entries
        ≠ [] ∧
    sumValues
        (⟨[], [⟨200, "Groceries", "Food & Dining", "2024-01-02", "T1"⟩,
               ⟨100, "Gas", "Transportation", "2024-01-03", "T2"⟩]⟩ :
          BudgetData).get_expenses_by_category
      = (⟨[], [⟨200, "Groceries", "Food & Dining", "2024-01-02", "T1"⟩,
               ⟨100, "Gas", "Transportation", "2024-01-03", "T2"⟩]⟩ :
          BudgetData).get_total_expenses :=
  ⟨by decide,
   (category_grouping_complete
     ⟨[], [⟨200, "Groceries", "Food & Dining", "2024-01-02", "T1"⟩,
           ⟨100, "Gas", "Transportation", "2024-01-03", "T2"⟩]⟩ (by decide)).1⟩
